import Mathlib

/-!
Verification development for the slovo voice-assistant agent runtime.

Shallow embedding of the subsystems the claims speak about:
  * the intent interpreter's heuristic fallback (agents/intent.py),
  * the memory write service and its three gates (memory/writer.py),
  * the postgres repository's preference upsert and metadata tracking
    (memory/postgres_repository.py),
  * the memory retrieval pipeline and its token budgets (memory/retrieval.py),
  * the tool repository, the docker sandbox manager and the executor's
    tool-execution step (tools/repository.py, tools/sandbox.py,
    agents/executor.py),
  * the encryption service (memory/encryption.py), with the external
    Fernet cipher modelled by its library interface contract,
  * the orchestrator's process_message pipeline (agents/orchestrator.py),
    with the five collaborating agents abstracted as parameters.

Python floats used for confidences are modelled as rationals; uuid4 and
NOW() are modelled as an explicit counter and explicit timestamps;
fallible store operations are modelled with explicit fault flags.
-/

set_option linter.unusedVariables false

namespace Slovo

/-! ## String helpers mirroring the Python primitives used by the source -/

/-- Python `pat in s` (substring containment) over character lists. -/
def listContainsSub (pat : List Char) : List Char → Bool
  | [] => pat.isEmpty
  | c :: rest => pat.isPrefixOf (c :: rest) || listContainsSub pat rest

/-- Python `pat in s` for strings. -/
def strContainsSub (s pat : String) : Bool :=
  listContainsSub pat.toList s.toList

/-- Python slicing `s[:n]` by characters. -/
def strTake (s : String) (n : Nat) : String :=
  String.mk (s.toList.take n)

/-- Python `l[-n:]` for a positive `n`. -/
def lastN (n : Nat) (l : List α) : List α :=
  l.drop (l.length - n)

/-- Python `str.lower()` (character-wise, as the source's ASCII uses need). -/
def pyLower (s : String) : String :=
  String.mk (s.toList.map Char.toLower)

/-- Strip leading and trailing whitespace from a character list. -/
def listTrim (l : List Char) : List Char :=
  ((l.dropWhile Char.isWhitespace).reverse.dropWhile Char.isWhitespace).reverse

/-- Python `str.strip()`. -/
def pyTrim (s : String) : String :=
  String.mk (listTrim s.toList)

/-- Python `str.endswith(pat)`. -/
def pyEndsWith (s pat : String) : Bool :=
  pat.toList.isSuffixOf s.toList

/-- Python `str.startswith(pat)`. -/
def pyStartsWith (s pat : String) : Bool :=
  pat.toList.isPrefixOf s.toList

/-- Accumulator loop for `pySplitWs`. -/
def splitWsAux : List Char → List Char → List String → List String
  | [], cur, acc => if cur.isEmpty then acc else acc ++ [String.mk cur.reverse]
  | c :: rest, cur, acc =>
      if c.isWhitespace then
        if cur.isEmpty then splitWsAux rest [] acc
        else splitWsAux rest [] (acc ++ [String.mk cur.reverse])
      else splitWsAux rest (c :: cur) acc

/-- Python `str.split()` — split on whitespace runs, dropping empties. -/
def pySplitWs (s : String) : List String :=
  splitWsAux s.toList [] []

/-- A rational given in lowest terms by the raw constructor, so that the
kernel evaluates comparisons on it directly.  Used for the float literals of
the source (0.25, 0.5, 0.6, 0.7, 0.8, 0.9), all exactly representable. -/
def ratLit (num : Int) (den : Nat) (hden : den ≠ 0)
    (hred : num.natAbs.Coprime den) : ℚ :=
  ⟨num, den, hden, hred⟩

/-- The float literal 0.25. -/
def q0p25 : ℚ := ratLit 1 4 (by decide) (by norm_num)

/-- The float literal 0.5. -/
def q0p5 : ℚ := ratLit 1 2 (by decide) (by norm_num)

/-- The float literal 0.6. -/
def q0p6 : ℚ := ratLit 3 5 (by decide) (by norm_num)

/-- The float literal 0.7. -/
def q0p7 : ℚ := ratLit 7 10 (by decide) (by norm_num)

/-- The float literal 0.8. -/
def q0p8 : ℚ := ratLit 4 5 (by decide) (by norm_num)

/-- The float literal 0.9. -/
def q0p9 : ℚ := ratLit 9 10 (by decide) (by norm_num)

/-! ## Intent model (models/base.py) -/

/-- IntentType enum from models/base.py. -/
inductive IntentType where
  | question
  | command
  | conversation
  | tool_request
  | clarification
  | unknown
deriving DecidableEq, Repr

/-- Parsed user intent (models/base.py `Intent`). Entities are a key→value
map; confidence is modelled as a rational. -/
structure Intent where
  type : IntentType
  text : String
  language : String := "en"
  entities : List (String × String) := []
  confidence : ℚ := 1
  requires_tool : Bool := false
  tool_hint : Option String := none
deriving DecidableEq, Repr

/-- Leading interrogative words checked by the heuristic fallback
(agents/intent.py `_heuristic_interpret`). -/
def interrogativeStarts : List String :=
  ["what", "how", "why", "when", "where", "who", "can you", "could you"]

/-- Leading imperative words checked by the heuristic fallback. -/
def imperativeStarts : List String :=
  ["please", "can you", "could you", "i need", "i want", "help me"]

/-- Tool keywords checked by the heuristic fallback. -/
def toolKeywords : List String :=
  ["search", "find", "look up", "calculate", "convert", "translate"]

/-- agents/intent.py `IntentInterpreterAgent._heuristic_interpret`:
fallback interpretation used when no language model is configured. -/
def heuristicInterpret (message : String) : Intent :=
  let messageLower := pyTrim (pyLower message)
  let itype :=
    if pyEndsWith messageLower "?"
        || interrogativeStarts.any (fun q => pyStartsWith messageLower q) then
      IntentType.question
    else if imperativeStarts.any (fun c => pyStartsWith messageLower c) then
      IntentType.command
    else
      IntentType.conversation
  let requiresTool := toolKeywords.any (fun k => strContainsSub messageLower k)
  { type := itype
    text := message
    language := "en"
    confidence := q0p6
    requires_tool := requiresTool }

/-! ## Encryption service (memory/encryption.py)

The `cryptography` library's Fernet cipher is an external collaborator; it is
modelled here by its documented interface contract: an authenticated token
bound to the encrypting key, returning the exact plaintext under the matching
key and raising `InvalidToken` under any other key.  The UTF-8 codec is a
bijection onto valid byte strings, so plaintext bytes are identified with the
`String` they encode; the urlsafe base64 codec is modelled as the injective
wrapper it is. -/

/-- A Fernet key (32 key bytes, base64-wrapped by the service constructor). -/
structure FernetKey where
  bytes : List Nat
deriving DecidableEq, Repr

/-- A Fernet token, per the library contract: it authenticates the key that
produced it and carries the plaintext payload. -/
structure FernetToken where
  key : FernetKey
  payload : String
deriving DecidableEq, Repr

/-- Library contract: `Fernet(key).encrypt(payload)`. -/
def fernetEncrypt (k : FernetKey) (payload : String) : FernetToken :=
  { key := k, payload := payload }

/-- Library contract: `Fernet(key).decrypt(token)` — returns the payload when
the token was produced under the same key, `none` (InvalidToken) otherwise. -/
def fernetDecrypt (k : FernetKey) (t : FernetToken) : Option String :=
  if t.key = k then some t.payload else none

/-- The ciphertext string produced by `EncryptionService.encrypt`: the
urlsafe-base64 rendering of a Fernet token. -/
structure CipherText where
  token : FernetToken
deriving DecidableEq, Repr

/-- Library contract: urlsafe base64 encoding of a token (injective). -/
def b64encode (t : FernetToken) : CipherText := { token := t }

/-- Library contract: urlsafe base64 decoding, inverse of `b64encode`. -/
def b64decode (c : CipherText) : FernetToken := c.token

/-- memory/encryption.py `EncryptionError`. -/
inductive EncryptionError where
  | invalidToken
deriving DecidableEq, Repr

/-- memory/encryption.py `EncryptionService.encrypt`:
`b64encode(fernet.encrypt(plaintext.encode("utf-8")))`. -/
def EncryptionService.encrypt (k : FernetKey) (plaintext : String) : CipherText :=
  b64encode (fernetEncrypt k plaintext)

/-- memory/encryption.py `EncryptionService.decrypt`:
`fernet.decrypt(b64decode(ciphertext)).decode("utf-8")`, with any library
failure re-raised as `EncryptionError`. -/
def EncryptionService.decrypt (k : FernetKey) (ciphertext : CipherText) :
    Except EncryptionError String :=
  match fernetDecrypt k (b64decode ciphertext) with
  | some plaintext => Except.ok plaintext
  | none => Except.error EncryptionError.invalidToken

/-! ## Memory domain model (models/memory.py) -/

/-- MemoryType enum. -/
inductive MemoryType where
  | semantic
  | episodic
  | preference
deriving DecidableEq, Repr

/-- MemorySource enum. -/
inductive MemorySource where
  | conversation
  | tool
  | user_edit
  | verifier
deriving DecidableEq, Repr

/-- StoreLocation enum. -/
inductive StoreLocation where
  | qdrant
  | postgres
  | redis
deriving DecidableEq, Repr

/-- PreferenceSource enum. -/
inductive PreferenceSource where
  | user_edit
  | verifier_approved
  | system_default
deriving DecidableEq, Repr

/-- UserProfile (models/memory.py); the singleton durable profile row. -/
structure UserProfile where
  preferred_languages : List String := ["en"]
  communication_style : Option String := some "friendly"
  privacy_level : String := "standard"
  memory_capture_enabled : Bool := true
deriving DecidableEq, Repr

/-- MemoryWriteRequest (models/memory.py). -/
structure MemoryWriteRequest where
  memory_type : MemoryType
  content : String
  source : MemorySource
  confidence : ℚ
  conversation_id : Option String := none
  metadata : List (String × String) := []
deriving DecidableEq, Repr

/-- VerifierMemoryApproval (models/memory.py). -/
structure VerifierMemoryApproval where
  approved : Bool
  confidence : ℚ
  reason : String
  adjusted_content : Option String := none
deriving DecidableEq, Repr

/-- The error cases produced by `MemoryWriteService.write` and its routed
writers, abstracting the source's formatted error strings. -/
inductive WriteError where
  | verifierRejected (reason : String)
  | belowThreshold (effective : ℚ)
  | captureDisabled
  | noEmbeddingFunction
  | preferenceKeyMissing
  | storeError
deriving DecidableEq, Repr

/-- MemoryWriteResult (models/memory.py). Memory ids are modelled as the
naturals drawn from the state's fresh-id counter (uuid4 in the source). -/
structure MemoryWriteResult where
  success : Bool
  memory_id : Option Nat := none
  memory_type : Option MemoryType := none
  error : Option WriteError := none
  verifier_approved : Bool := false
deriving DecidableEq, Repr

/-- A point stored in the Qdrant collection (memory/qdrant_repository.py
payload plus vector), created by the writer's semantic path. -/
structure SemanticPoint where
  id : Nat
  vector : List ℚ
  source : MemorySource
  confidence : ℚ
  summary : String
  conversation_id : Option String := none
  tool_name : Option String := none
deriving DecidableEq, Repr

/-- A row of the `memory_metadata` table (models/memory.py MemoryMetadata). -/
structure MetadataRow where
  id : Nat
  memory_type : MemoryType
  store_location : StoreLocation
  summary : String
  source : MemorySource
  confidence : ℚ
  is_deleted : Bool := false
  updated_at : Nat := 0
deriving DecidableEq, Repr

/-- A row of the `user_preference` table; `value` holds the ciphertext the
repository stores (encryption at the repository boundary). -/
structure PreferenceRow where
  id : Nat
  key : String
  value : String
  source : PreferenceSource
  confidence : ℚ
  created_at : Nat
  updated_at : Nat
deriving DecidableEq, Repr

/-- EpisodicActionType enum (models/memory.py). -/
inductive EpisodicActionType where
  | intent_parsed
  | plan_created
  | tool_executed
  | verification_completed
  | explanation_generated
  | memory_written
  | error_occurred
  | self_correction
deriving DecidableEq, Repr

/-- models/memory.py `EpisodicActionType(value)` lookup, returning `none`
where the Python constructor raises `ValueError`. -/
def episodicActionTypeOf (s : String) : Option EpisodicActionType :=
  if s = "intent_parsed" then some EpisodicActionType.intent_parsed
  else if s = "plan_created" then some EpisodicActionType.plan_created
  else if s = "tool_executed" then some EpisodicActionType.tool_executed
  else if s = "verification_completed" then some EpisodicActionType.verification_completed
  else if s = "explanation_generated" then some EpisodicActionType.explanation_generated
  else if s = "memory_written" then some EpisodicActionType.memory_written
  else if s = "error_occurred" then some EpisodicActionType.error_occurred
  else if s = "self_correction" then some EpisodicActionType.self_correction
  else none

/-- A row of the `episodic_log` table; `summary` holds the ciphertext the
repository stores. -/
structure EpisodicRow where
  id : Nat
  agent : String
  action_type : EpisodicActionType
  summary : String
  confidence : ℚ
deriving DecidableEq, Repr

/-- The combined state of the three memory stores seen by the writer:
the Qdrant collection, the Postgres tables and the singleton profile.
`nextId` models the uuid4 supply; `trackMemoryFails` injects a failure of
the next `track_memory` metadata insert (a store outage at that point). -/
structure MemState where
  qdrant : List SemanticPoint := []
  metadata : List MetadataRow := []
  prefs : List PreferenceRow := []
  episodic : List EpisodicRow := []
  profile : UserProfile := {}
  nextId : Nat := 0
  trackMemoryFails : Bool := false
deriving Repr

/-- Python `metadata.get(k)` over the request's string map. -/
def metaGet (md : List (String × String)) (k : String) : Option String :=
  (md.find? (fun p => p.1 == k)).map (fun p => p.2)

/-! ## Postgres repository operations used by the writer
(memory/postgres_repository.py) -/

/-- postgres_repository.py `track_memory`: INSERT into `memory_metadata`
ON CONFLICT (id) DO UPDATE summary, confidence, is_deleted, updated_at. -/
def trackMemory (now : Nat) (m : MetadataRow) (st : MemState) : MemState :=
  if st.metadata.any (fun r => r.id == m.id) then
    { st with
      metadata := st.metadata.map (fun r =>
        if r.id == m.id then
          { r with summary := m.summary, confidence := m.confidence,
                   is_deleted := m.is_deleted, updated_at := now }
        else r) }
  else
    { st with metadata := st.metadata ++ [{ m with updated_at := now }] }

/-- postgres_repository.py `set_preference`: draws a fresh uuid, encrypts the
value, INSERTs into `user_preference` ON CONFLICT (key) DO UPDATE value,
source, confidence, updated_at — note the conflicting row keeps its original
id — and returns a `UserPreference` carrying the fresh uuid regardless of
whether the INSERT or the UPDATE arm ran. -/
def setPreference (encV : String → String) (now : Nat) (key value : String)
    (source : PreferenceSource) (confidence : ℚ) (st : MemState) :
    PreferenceRow × MemState :=
  let pid := st.nextId
  let st1 := { st with nextId := st.nextId + 1 }
  let stored := encV value
  let prefs' :=
    if st1.prefs.any (fun r => r.key == key) then
      st1.prefs.map (fun r =>
        if r.key == key then
          { r with value := stored, source := source,
                   confidence := confidence, updated_at := now }
        else r)
    else
      st1.prefs ++ [{ id := pid, key := key, value := stored, source := source,
                      confidence := confidence, created_at := now, updated_at := now }]
  ({ id := pid, key := key, value := value, source := source,
     confidence := confidence, created_at := now, updated_at := now },
   { st1 with prefs := prefs' })

/-! ## Memory write service (memory/writer.py) -/

/-- writer.py `MIN_CONFIDENCE_THRESHOLD = 0.7`. -/
def MIN_CONFIDENCE_THRESHOLD : ℚ := q0p7

/-- writer.py `MemoryWriteService._write_semantic`: embed, upsert the entry to
Qdrant, then `track_memory` in Postgres.  If the metadata insert fails the
exception is caught and a failure result returned — the Qdrant write is kept
as is. -/
def writeSemantic (embeddingFn : Option (String → List ℚ)) (now : Nat)
    (content : String) (source : MemorySource) (confidence : ℚ)
    (conversation_id : Option String) (md : List (String × String))
    (st : MemState) : MemoryWriteResult × MemState :=
  match embeddingFn with
  | none =>
      ({ success := false, error := some WriteError.noEmbeddingFunction,
         verifier_approved := true }, st)
  | some f =>
      let vector := f content
      let memoryId := st.nextId
      let st1 := { st with nextId := st.nextId + 1 }
      let entry : SemanticPoint :=
        { id := memoryId, vector := vector, source := source,
          confidence := confidence, summary := strTake content 500,
          conversation_id := conversation_id, tool_name := metaGet md "tool_name" }
      let st2 := { st1 with qdrant := st1.qdrant ++ [entry] }
      if st2.trackMemoryFails then
        ({ success := false, error := some WriteError.storeError,
           verifier_approved := true }, st2)
      else
        let st3 := trackMemory now
          { id := memoryId, memory_type := MemoryType.semantic,
            store_location := StoreLocation.qdrant,
            summary := strTake content 200, source := source,
            confidence := confidence } st2
        ({ success := true, memory_id := some memoryId,
           memory_type := some MemoryType.semantic,
           verifier_approved := true }, st3)

/-- Python `content.split(":", 1)` — split at the first colon. -/
def splitFirstColon : List Char → Option (List Char × List Char)
  | [] => none
  | c :: rest =>
      if c = ':' then some ([], rest)
      else (splitFirstColon rest).map (fun p => (c :: p.1, p.2))

/-- writer.py `_write_preference`'s key extraction: `metadata.get
("preference_key")` when truthy, else parse a `key:value` content. -/
def preferenceKeyOf (md : List (String × String)) (content : String) :
    Option (String × String) :=
  let k0 := (metaGet md "preference_key").getD ""
  if k0 ≠ "" then some (k0, content)
  else
    match splitFirstColon content.toList with
    | some (k, v) => some (pyTrim (String.mk k), pyTrim (String.mk v))
    | none => none

/-- writer.py `MemoryWriteService._write_preference`: resolve the key, upsert
the preference row, then `track_memory` with the `UserPreference` id that
`set_preference` returned.  A `track_memory` failure is caught and returned
as a failure result with the preference upsert left committed. -/
def writePreference (encV : String → String) (now : Nat) (content : String)
    (source : MemorySource) (confidence : ℚ) (md : List (String × String))
    (st : MemState) : MemoryWriteResult × MemState :=
  match preferenceKeyOf md content with
  | none =>
      ({ success := false, error := some WriteError.preferenceKeyMissing,
         verifier_approved := true }, st)
  | some (key, value) =>
      let prefSource :=
        if source = MemorySource.user_edit then PreferenceSource.user_edit
        else PreferenceSource.verifier_approved
      let (preference, st1) := setPreference encV now key value prefSource confidence st
      if st1.trackMemoryFails then
        ({ success := false, error := some WriteError.storeError,
           verifier_approved := true }, st1)
      else
        let st2 := trackMemory now
          { id := preference.id, memory_type := MemoryType.preference,
            store_location := StoreLocation.postgres,
            summary := key ++ ": " ++ strTake value 100, source := source,
            confidence := confidence } st1
        ({ success := true, memory_id := some preference.id,
           memory_type := some MemoryType.preference,
           verifier_approved := true }, st2)

/-- writer.py `MemoryWriteService._write_episodic`: append to the episodic
log (summary encrypted at the repository boundary), then `track_memory`.
A `track_memory` failure is caught and returned as a failure result with the
episodic append left committed. -/
def writeEpisodic (encV : String → String) (now : Nat) (content : String)
    (source : MemorySource) (confidence : ℚ) (conversation_id : Option String)
    (md : List (String × String)) (st : MemState) :
    MemoryWriteResult × MemState :=
  let memoryId := st.nextId
  let st1 := { st with nextId := st.nextId + 1 }
  let actionType :=
    (episodicActionTypeOf ((metaGet md "action_type").getD "memory_written")).getD
      EpisodicActionType.memory_written
  let agent := (metaGet md "agent").getD "unknown"
  let row : EpisodicRow :=
    { id := memoryId, agent := agent, action_type := actionType,
      summary := encV content, confidence := confidence }
  let st2 := { st1 with episodic := st1.episodic ++ [row] }
  if st2.trackMemoryFails then
    ({ success := false, error := some WriteError.storeError,
       verifier_approved := true }, st2)
  else
    let st3 := trackMemory now
      { id := memoryId, memory_type := MemoryType.episodic,
        store_location := StoreLocation.postgres,
        summary := strTake content 200, source := source,
        confidence := confidence } st2
    ({ success := true, memory_id := some memoryId,
       memory_type := some MemoryType.episodic,
       verifier_approved := true }, st3)

/-- writer.py `MemoryWriteService.write`: the three gates evaluated in order —
verifier approval, `min(request.confidence, approval.confidence)` against the
0.7 threshold, and the profile's `memory_capture_enabled` — then routing by
memory kind with the verifier-adjusted content.  The profile read is modelled
as always available (the source proceeds fail-open only on a store outage). -/
def write (embeddingFn : Option (String → List ℚ)) (encV : String → String)
    (now : Nat) (request : MemoryWriteRequest) (approval : VerifierMemoryApproval)
    (st : MemState) : MemoryWriteResult × MemState :=
  if !approval.approved then
    ({ success := false, error := some (WriteError.verifierRejected approval.reason),
       verifier_approved := false }, st)
  else
    let effectiveConfidence := min request.confidence approval.confidence
    if effectiveConfidence < MIN_CONFIDENCE_THRESHOLD then
      ({ success := false, error := some (WriteError.belowThreshold effectiveConfidence),
         verifier_approved := true }, st)
    else if !st.profile.memory_capture_enabled then
      ({ success := false, error := some WriteError.captureDisabled,
         verifier_approved := true }, st)
    else
      let content := approval.adjusted_content.getD request.content
      match request.memory_type with
      | MemoryType.semantic =>
          writeSemantic embeddingFn now content request.source effectiveConfidence
            request.conversation_id request.metadata st
      | MemoryType.preference =>
          writePreference encV now content request.source effectiveConfidence
            request.metadata st
      | MemoryType.episodic =>
          writeEpisodic encV now content request.source effectiveConfidence
            request.conversation_id request.metadata st

/-! ## Memory retrieval pipeline (memory/retrieval.py) -/

/-- MemoryRetrievalRequest (models/memory.py); pydantic accepts
`100 ≤ token_limit ≤ 8000`, `1 ≤ max_semantic_results ≤ 20`,
`1 ≤ max_episodic_results ≤ 10`. -/
structure MemoryRetrievalRequest where
  user_message : String
  conversation_id : Option String := none
  max_semantic_results : Nat := 5
  max_episodic_results : Nat := 3
  token_limit : Nat := 2000
deriving DecidableEq, Repr

/-- Pydantic bounds on `MemoryRetrievalRequest.token_limit`. -/
def tokenLimitAccepted (request : MemoryRetrievalRequest) : Prop :=
  100 ≤ request.token_limit ∧ request.token_limit ≤ 8000

/-- MemoryContext (models/memory.py): the pipeline's aggregated output. -/
structure MemoryContext where
  user_profile_summary : String := ""
  recent_conversation_summary : String := ""
  relevant_memories_summary : String := ""
  episodic_context_summary : String := ""
  total_token_estimate : Nat := 0
deriving DecidableEq, Repr

/-- The store contents the four subqueries read: the profile, the redis turn
list for the requested conversation (chronological order, as
`get_recent_turns` returns it), the Qdrant search results for the request's
message (in returned order), whether an embedding function is installed, and
the episodic log (most recent first, as `get_recent_episodic_logs` returns
it; entries are (agent, summary, confidence)). -/
structure RetrievalStores where
  profile : UserProfile := {}
  turns : List (String × String) := []
  semanticResults : List (ℚ × String) := []
  hasEmbedding : Bool := false
  episodicLogs : List (String × String × ℚ) := []
deriving Repr

/-- retrieval.py `CHARS_PER_TOKEN = 4`. -/
def CHARS_PER_TOKEN : Nat := 4

/-- retrieval.py `PROFILE_TOKEN_BUDGET = 200`. -/
def PROFILE_TOKEN_BUDGET : Nat := 200

/-- retrieval.py `CONVERSATION_TOKEN_BUDGET = 500`. -/
def CONVERSATION_TOKEN_BUDGET : Nat := 500

/-- retrieval.py `SEMANTIC_TOKEN_BUDGET = 800`. -/
def SEMANTIC_TOKEN_BUDGET : Nat := 800

/-- retrieval.py `EPISODIC_TOKEN_BUDGET = 300`. -/
def EPISODIC_TOKEN_BUDGET : Nat := 300

/-- retrieval.py `_estimate_tokens`: `len(text) // 4`. -/
def estimateTokens (text : String) : Nat :=
  text.length / CHARS_PER_TOKEN

/-- retrieval.py `_truncate_to_tokens`. -/
def truncateToTokens (text : String) (tokenLimit : Nat) : String :=
  let maxChars := tokenLimit * CHARS_PER_TOKEN
  if text.length ≤ maxChars then text
  else strTake text (maxChars - 3) ++ "..."

/-- retrieval.py `_summarize_profile`.  Python truthiness: an absent or empty
communication style contributes no part. -/
def summarizeProfile (profile : UserProfile) : String :=
  let langParts :=
    if profile.preferred_languages ≠ [] then
      ["Languages: " ++ String.intercalate ", " profile.preferred_languages]
    else []
  let styleParts :=
    match profile.communication_style with
    | some s => if s ≠ "" then ["Style: " ++ s] else []
    | none => []
  let captureParts :=
    if !profile.memory_capture_enabled then ["Memory capture: disabled"] else []
  let parts := langParts ++ styleParts ++ captureParts
  if parts = [] then ""
  else "User preferences: " ++ String.intercalate "; " parts ++ "."

/-- The accumulation loop shared by the three list-section summarizers: append
each candidate line while `total_chars + len(line)` stays within `maxChars`,
`break`-ing at the first overflow.  Returns the kept lines and the final
character count (newlines are not counted — exactly as in the source). -/
def buildLines (maxChars : Nat) : List String → Nat → List String →
    List String × Nat
  | [], total, acc => (acc, total)
  | line :: rest, total, acc =>
      if maxChars < total + line.length then (acc, total)
      else buildLines maxChars rest (total + line.length) (acc ++ [line])

/-- retrieval.py `_summarize_turns`: the last 5 turns, each content truncated
to 200 characters with an ellipsis, under the character budget. -/
def summarizeTurns (turns : List (String × String)) (tokenBudget : Nat) : String :=
  if turns = [] then ""
  else
    let header := "Recent conversation:"
    let maxChars := tokenBudget * CHARS_PER_TOKEN
    let candidates := (lastN 5 turns).map (fun t =>
      let role := if t.1 == "user" then "User" else "Assistant"
      let content := if 200 < t.2.length then strTake t.2 200 ++ "..." else t.2
      "- " ++ role ++ ": " ++ content)
    let (kept, _) := buildLines maxChars candidates header.length []
    String.intercalate "\n" (header :: kept)

/-- retrieval.py `_summarize_semantic`: results below score 0.25 are skipped;
remaining summaries are listed under the character budget; a header-only
summary collapses to the empty string. -/
def summarizeSemantic (results : List (ℚ × String)) (tokenBudget : Nat) : String :=
  if results = [] then ""
  else
    let header := "Relevant context:"
    let maxChars := tokenBudget * CHARS_PER_TOKEN
    let candidates := (results.filter (fun r => !(r.1 < q0p25))).map
      (fun r => "- " ++ r.2)
    let (kept, _) := buildLines maxChars candidates header.length []
    if kept = [] then "" else String.intercalate "\n" (header :: kept)

/-- retrieval.py `_summarize_episodic`: keep logs with confidence ≥ 0.7, at
most 3, formatted `- [agent] summary`, under the character budget; a
header-only summary collapses to the empty string. -/
def summarizeEpisodic (logs : List (String × String × ℚ)) (tokenBudget : Nat) :
    String :=
  if logs = [] then ""
  else
    let filtered := (logs.filter (fun l => q0p7 ≤ l.2.2)).take 3
    if filtered = [] then ""
    else
      let header := "Recent actions:"
      let maxChars := tokenBudget * CHARS_PER_TOKEN
      let candidates := filtered.map (fun l => "- [" ++ l.1 ++ "] " ++ l.2.1)
      let (kept, _) := buildLines maxChars candidates header.length []
      if kept = [] then "" else String.intercalate "\n" (header :: kept)

/-- retrieval.py `_retrieve_profile`. -/
def retrieveProfile (stores : RetrievalStores) (tokenBudget : Nat) :
    String × Nat :=
  if tokenBudget = 0 then ("", 0)
  else
    let summary := summarizeProfile stores.profile
    let tokens := estimateTokens summary
    if tokenBudget < tokens then (truncateToTokens summary tokenBudget, tokenBudget)
    else (summary, tokens)

/-- retrieval.py `_retrieve_session`: skipped for a missing (or empty, by
Python truthiness) conversation id; reads the last 10 turns. -/
def retrieveSession (stores : RetrievalStores) (conversation_id : Option String)
    (tokenBudget : Nat) : String × Nat :=
  if tokenBudget = 0 || conversation_id = none || conversation_id = some "" then
    ("", 0)
  else
    let turns := lastN 10 stores.turns
    if turns = [] then ("", 0)
    else
      let summary := summarizeTurns turns tokenBudget
      (summary, estimateTokens summary)

/-- retrieval.py `_retrieve_semantic`: skipped without an embedding function;
searches Qdrant with `limit = max_results` and `min_confidence = 0.25`. -/
def retrieveSemantic (stores : RetrievalStores) (maxResults : Nat)
    (tokenBudget : Nat) : String × Nat :=
  if tokenBudget = 0 || !stores.hasEmbedding then ("", 0)
  else
    let results := stores.semanticResults.take maxResults
    if results = [] then ("", 0)
    else
      let summary := summarizeSemantic results tokenBudget
      (summary, estimateTokens summary)

/-- retrieval.py `_retrieve_episodic`: reads the most recent `max_results`
episodic log entries. -/
def retrieveEpisodic (stores : RetrievalStores) (maxResults : Nat)
    (tokenBudget : Nat) : String × Nat :=
  if tokenBudget = 0 then ("", 0)
  else
    let logs := stores.episodicLogs.take maxResults
    if logs = [] then ("", 0)
    else
      let summary := summarizeEpisodic logs tokenBudget
      (summary, estimateTokens summary)

/-- retrieval.py `MemoryRetrievalPipeline.retrieve`: the four subqueries run
with budgets `min(SECTION_BUDGET, remaining_tokens)` where `remaining_tokens`
is the request's token limit (it is never decremented between sections); the
total estimate is the sum of the four section estimates. -/
def retrieve (stores : RetrievalStores) (request : MemoryRetrievalRequest) :
    MemoryContext :=
  let remainingTokens := request.token_limit
  let (profileSummary, profileTokens) :=
    retrieveProfile stores (min PROFILE_TOKEN_BUDGET remainingTokens)
  let (conversationSummary, convTokens) :=
    retrieveSession stores request.conversation_id
      (min CONVERSATION_TOKEN_BUDGET remainingTokens)
  let (semanticSummary, semanticTokens) :=
    retrieveSemantic stores request.max_semantic_results
      (min SEMANTIC_TOKEN_BUDGET remainingTokens)
  let (episodicSummary, episodicTokens) :=
    retrieveEpisodic stores request.max_episodic_results
      (min EPISODIC_TOKEN_BUDGET remainingTokens)
  { user_profile_summary := profileSummary
    recent_conversation_summary := conversationSummary
    relevant_memories_summary := semanticSummary
    episodic_context_summary := episodicSummary
    total_token_estimate :=
      profileTokens + convTokens + semanticTokens + episodicTokens }

/-! ## Plan and execution model (models/base.py) -/

/-- StepType enum. -/
inductive StepType where
  | llm_response
  | tool_execution
  | tool_discovery
  | memory_retrieval
  | clarification
deriving DecidableEq, Repr

/-- PlanStep (models/base.py); tool parameters modelled as a string map. -/
structure PlanStep where
  type : StepType
  description : String
  tool_name : Option String := none
  tool_params : List (String × String) := []
  depends_on : List Nat := []
deriving DecidableEq, Repr

/-- ExecutionPlan (models/base.py). -/
structure ExecutionPlan where
  intent : Intent
  steps : List PlanStep := []
  requires_approval : Bool := false
  estimated_complexity : String := "simple"
  requires_verification : Bool := true
  requires_explanation : Bool := true
deriving DecidableEq, Repr

/-- The step outputs the executor produces (the source uses untyped payloads;
each constructor mirrors one of the dict/string shapes built in
agents/executor.py). -/
inductive StepOutput where
  | text (s : String)
  | needsClarification
  | toolResult (tool_name : String) (stdout stderr : String)
      (execution_id : Nat) (duration_ms : Nat)
  | toolFailed (tool_name : String) (execution_id : Nat) (exit_code : Option Int)
  | toolSkipped (tool_name : String)
  | discoveryQueued (request_id : Nat)
  | memoryRetrieved (relevant_context : String)
deriving DecidableEq, Repr

/-- StepResult (models/base.py). -/
structure StepResult where
  step_index : Nat
  success : Bool
  output : Option StepOutput := none
  error : Option String := none
deriving DecidableEq, Repr

/-- ExecutionResult (models/base.py). -/
structure ExecutionResult where
  plan : ExecutionPlan
  success : Bool
  step_results : List StepResult := []
  final_output : Option StepOutput := none
  error : Option String := none
deriving DecidableEq, Repr

/-! ## Tool repository (tools/repository.py) -/

/-- ToolStatus enum (models/tools.py). -/
inductive ToolStatus where
  | pending_approval
  | approved
  | active
  | disabled
  | revoked
deriving DecidableEq, Repr

/-- ExecutionStatus enum (models/tools.py). -/
inductive ExecutionStatus where
  | running
  | success
  | failure
  | timeout
  | cancelled
deriving DecidableEq, Repr

/-- PermissionType enum (models/tools.py). -/
inductive PermissionType where
  | internet_access
  | storage
  | cpu_limit
  | memory_limit
deriving DecidableEq, Repr

/-- A `tool_manifest` row, restricted to the fields the executor and the
sandbox consult. -/
structure ToolManifestDB where
  id : Nat
  name : String
  status : ToolStatus
  created_at : Nat
deriving DecidableEq, Repr

/-- A `tool_permission` row. -/
structure ToolPermissionDB where
  tool_id : Nat
  permission_type : PermissionType
  permission_value : String
deriving DecidableEq, Repr

/-- A `tool_execution_log` row. -/
structure ToolExecutionLogDB where
  id : Nat
  tool_id : Nat
  input_params : List (String × String)
  started_at : Nat
  completed_at : Option Nat := none
  duration_ms : Option Nat := none
  status : ExecutionStatus
  exit_code : Option Int := none
  container_id : Option String := none
deriving DecidableEq, Repr

/-- ToolExecutionUpdate (models/tools.py): only the non-`none` fields are
written by `update_tool_execution`. -/
structure ToolExecutionUpdate where
  completed_at : Option Nat := none
  duration_ms : Option Nat := none
  status : Option ExecutionStatus := none
  exit_code : Option Int := none
  container_id : Option String := none
deriving DecidableEq, Repr

/-- The tool repository's persistent state.  `nextId` models the uuid4
supply; `updateLogCalls` records the execution-log ids passed to
`update_tool_execution`, so that "updated exactly once" is observable. -/
structure ToolRepoState where
  manifests : List ToolManifestDB := []
  permissions : List ToolPermissionDB := []
  executions : List ToolExecutionLogDB := []
  nextId : Nat := 0
  updateLogCalls : List Nat := []
deriving DecidableEq, Repr

/-- repository.py `get_tool_manifest_by_name`: all rows of the given name,
ORDER BY created_at DESC LIMIT 1 (the latest-created match; the database
order among equal timestamps is unspecified, resolved here first-seen). -/
def getToolManifestByName (name : String) (st : ToolRepoState) :
    Option ToolManifestDB :=
  (st.manifests.filter (fun m => m.name == name)).foldl
    (fun best m =>
      match best with
      | none => some m
      | some b => if b.created_at < m.created_at then some m else some b)
    none

/-- repository.py `list_tool_permissions`. -/
def listToolPermissions (toolId : Nat) (st : ToolRepoState) :
    List ToolPermissionDB :=
  st.permissions.filter (fun p => p.tool_id == toolId)

/-- repository.py `create_tool_execution`: inserts a `running` row with
`started_at = now` and a fresh id. -/
def createToolExecution (now : Nat) (toolId : Nat)
    (inputParams : List (String × String)) (st : ToolRepoState) :
    ToolExecutionLogDB × ToolRepoState :=
  let row : ToolExecutionLogDB :=
    { id := st.nextId, tool_id := toolId, input_params := inputParams,
      started_at := now, status := ExecutionStatus.running }
  (row, { st with executions := st.executions ++ [row], nextId := st.nextId + 1 })

/-- repository.py `update_tool_execution`: dynamic UPDATE writing only the
populated fields of the update record. -/
def updateToolExecution (executionId : Nat) (upd : ToolExecutionUpdate)
    (st : ToolRepoState) : ToolRepoState :=
  { st with
    executions := st.executions.map (fun r =>
      if r.id == executionId then
        { r with
          completed_at :=
            match upd.completed_at with
            | some c => some c
            | none => r.completed_at
          duration_ms :=
            match upd.duration_ms with
            | some d => some d
            | none => r.duration_ms
          status := (upd.status).getD r.status
          exit_code :=
            match upd.exit_code with
            | some e => some e
            | none => r.exit_code
          container_id :=
            match upd.container_id with
            | some c => some c
            | none => r.container_id }
      else r)
    updateLogCalls := st.updateLogCalls ++ [executionId] }

/-! ## Docker sandbox manager (tools/sandbox.py) -/

/-- Container configuration derived by `_build_container_config`. -/
structure ContainerConfig where
  network_mode : String
  cpu_quota : Nat
  cpu_period : Nat
  mem_limit_mb : Nat
  read_only : Bool
  cap_drop_all : Bool
deriving DecidableEq, Repr

/-- sandbox.py `_build_container_config`: permission-driven network mode and
resource caps (value strings parsed as the Python `int(...)` calls do on the
well-formed values the repository stores). -/
def buildContainerConfig (permissions : List ToolPermissionDB) : ContainerConfig :=
  let permValue := fun (t : PermissionType) =>
    (permissions.find? (fun p => p.permission_type == t)).map
      (fun p => p.permission_value)
  let networkMode :=
    if permValue PermissionType.internet_access == some "true" then "bridge"
    else "none"
  let cpuLimit := ((permValue PermissionType.cpu_limit).getD "50").toNat?.getD 0
  let memoryLimit := ((permValue PermissionType.memory_limit).getD "512").toNat?.getD 0
  { network_mode := networkMode
    cpu_quota := cpuLimit * 1000
    cpu_period := 100000
    mem_limit_mb := memoryLimit
    read_only := true
    cap_drop_all := true }

/-- The behaviour of the external Docker daemon for one invocation:
whether starting the container raises, and the exit code and streams
collected after `container.wait()`. -/
structure ContainerRun where
  startFails : Bool := false
  exitCode : Int := 0
  stdout : String := ""
  stderr : String := ""
deriving DecidableEq, Repr

/-- What `execute_tool` hands back to the executor: either the result dict
(success or failure by exit code) or the re-raised RuntimeError. -/
inductive SandboxOutcome where
  | completed (execution_id : Nat) (status : ExecutionStatus)
      (duration_ms : Nat) (exit_code : Int) (stdout stderr : String)
  | raised (execution_id : Nat) (message : String)
deriving DecidableEq, Repr

/-- sandbox.py `DockerSandboxManager.execute_tool`.  Three wall-clock samples
are taken in source order: `tCreate` when the log row is created, `tStart`
(`start_time = datetime.utcnow()`) after the container configuration is
built, and `tEnd` when the container exits (or when the exception handler
runs).  On the normal path the log row is updated once with
`completed_at = tEnd`, `duration_ms = tEnd - tStart` and `success`/`failure`
by exit code; on a container-start failure it is updated once with
`completed_at` and `failure`, with no duration. -/
def sandboxExecuteTool (run : ContainerRun) (tCreate tStart tEnd : Nat)
    (manifest : ToolManifestDB) (permissions : List ToolPermissionDB)
    (inputParams : List (String × String)) (st : ToolRepoState) :
    SandboxOutcome × ToolRepoState :=
  let (executionLog, st1) := createToolExecution tCreate manifest.id inputParams st
  let _config := buildContainerConfig permissions
  if run.startFails then
    let st2 := updateToolExecution executionLog.id
      { completed_at := some tEnd, status := some ExecutionStatus.failure } st1
    (SandboxOutcome.raised executionLog.id "Container execution failed", st2)
  else
    let durationMs := tEnd - tStart
    let status :=
      if run.exitCode = 0 then ExecutionStatus.success else ExecutionStatus.failure
    let st2 := updateToolExecution executionLog.id
      { completed_at := some tEnd, duration_ms := some durationMs,
        status := some status, exit_code := some run.exitCode,
        container_id := some "container" } st1
    (SandboxOutcome.completed executionLog.id status durationMs run.exitCode
      run.stdout run.stderr, st2)

/-! ## Executor tool-execution step (agents/executor.py `_execute_tool`) -/

/-- agents/executor.py `ExecutorAgent._execute_tool` with a sandbox manager
configured: resolve the manifest by name, load its permissions, execute in
the sandbox, and translate the outcome into a `StepResult`.  The third
component reports whether a sandbox execution took place (a log row was
created and a container run attempted). -/
def executeToolStep (run : ContainerRun) (tCreate tStart tEnd : Nat)
    (step : PlanStep) (index : Nat) (st : ToolRepoState) :
    StepResult × ToolRepoState × Bool :=
  match step.tool_name with
  | none =>
      ({ step_index := index, success := false,
         error := some "No tool name specified" }, st, false)
  | some toolName =>
      match getToolManifestByName toolName st with
      | none =>
          ({ step_index := index, success := false,
             error := some ("Tool not found: " ++ toolName) }, st, false)
      | some toolManifest =>
          let permissions := listToolPermissions toolManifest.id st
          let (outcome, st') := sandboxExecuteTool run tCreate tStart tEnd
            toolManifest permissions step.tool_params st
          match outcome with
          | SandboxOutcome.completed executionId status durationMs exitCode out err =>
              if status = ExecutionStatus.success then
                ({ step_index := index, success := true,
                   output := some (StepOutput.toolResult toolName out err
                     executionId durationMs) }, st', true)
              else
                ({ step_index := index, success := false,
                   error := some ("Container exited with code " ++ toString exitCode),
                   output := some (StepOutput.toolFailed toolName executionId
                     (some exitCode)) }, st', true)
          | SandboxOutcome.raised _ message =>
              ({ step_index := index, success := false,
                 error := some ("Tool execution failed: " ++ message) }, st', true)

/-! ## Orchestrator (agents/orchestrator.py)

The orchestrator's own control flow is embedded directly; the five
collaborating agents and the memory manager's retrieval are abstracted as
pure parameter functions (each is a separate component with its own
language-model dependency).  The embedding threads an `OrchState` holding
the in-process conversation map, the pending-clarification map, the
ephemeral turn store (redis through `store_turn`), the memory write requests
emitted by `_extract_and_store_memories`, and invocation records for the
planner, executor, verifier and explainer. -/

/-- Verification (models/base.py). -/
structure Verification where
  is_valid : Bool
  confidence : ℚ := 1
  issues : List String := []
  suggestions : List String := []
  requires_correction : Bool := false
  correction_hint : Option String := none
deriving DecidableEq, Repr

/-- Explanation (models/base.py). -/
structure Explanation where
  response : String
  reasoning : Option String := none
  actions_taken : List String := []
  confidence_note : Option String := none
deriving DecidableEq, Repr

/-- AgentResult (models/base.py): what `process_message` returns. -/
structure AgentResult where
  response : String
  reasoning : Option String := none
  confidence : ℚ := 1
deriving DecidableEq, Repr

/-- ConversationContext (models/reasoning.py), the in-process per-conversation
state the orchestrator owns. -/
structure ConversationContext where
  recent_topics : List String := []
  user_preferences : List (String × String) := []
  conversation_language : String := "en"
  turn_count : Nat := 0
deriving DecidableEq, Repr

/-- A turn written to the ephemeral store: (conversation id, role, content). -/
abbrev TurnRecord := String × String × String

/-- The orchestrator's state: conversation contexts, pending clarifications,
the ephemeral turn store (in append order), the memory write requests
emitted, and the agent invocation records. -/
structure OrchState where
  conversations : List (String × ConversationContext) := []
  pending : List String := []
  turnStore : List TurnRecord := []
  memWriteContents : List String := []
  plannerCalls : Nat := 0
  executorPlans : List ExecutionPlan := []
  verifierCalls : Nat := 0
  explainerCalls : Nat := 0
deriving Repr

/-- The collaborating agents and the memory manager's retrieval, as pure
functions: intent interpretation (message, context string), planning (intent,
context string), plan execution (plan, conversation history, optional memory
context), verification (execution result, original request), explanation
(intent, result, verification) and `retrieve_context` (message,
conversation id). -/
structure Agents where
  interpret : String → String → Intent
  createPlan : Intent → String → ExecutionPlan
  execute : ExecutionPlan → List (String × String) → Option MemoryContext →
    ExecutionResult
  verify : ExecutionResult → String → Verification
  explain : Intent → ExecutionResult → Verification → Explanation
  retrieveCtx : String → String → MemoryContext

/-- orchestrator.py `_get_conversation_context` (lookup half): the context for
a conversation id, defaulted for a new conversation. -/
def convContextGet (st : OrchState) (conversationId : String) :
    ConversationContext :=
  ((st.conversations.find? (fun p => p.1 == conversationId)).map
    (fun p => p.2)).getD {}

/-- orchestrator.py `_get_conversation_context` (insert half): ensure the map
holds an entry for the conversation id. -/
def convContextEnsure (st : OrchState) (conversationId : String) : OrchState :=
  if st.conversations.any (fun p => p.1 == conversationId) then st
  else { st with conversations := st.conversations ++ [(conversationId, {})] }

/-- Store an updated context back into the conversation map. -/
def convContextSet (st : OrchState) (conversationId : String)
    (ctx : ConversationContext) : OrchState :=
  { st with
    conversations := st.conversations.map (fun p =>
      if p.1 == conversationId then (conversationId, ctx) else p) }

/-- orchestrator.py `_build_context_string`. -/
def buildContextString (ctx : ConversationContext) : String :=
  let topicParts :=
    if ctx.recent_topics ≠ [] then
      ["Recent topics: " ++ String.intercalate ", " ctx.recent_topics]
    else []
  let prefParts :=
    if ctx.user_preferences ≠ [] then
      ["User preferences: " ++ String.intercalate ", "
        (ctx.user_preferences.map (fun p => p.1 ++ ": " ++ p.2))]
    else []
  let langParts :=
    if ctx.conversation_language ≠ "en" then
      ["Conversation language: " ++ ctx.conversation_language]
    else []
  let parts := topicParts ++ prefParts ++ langParts
    ++ ["Turn count: " ++ toString ctx.turn_count]
  String.intercalate "\n" parts

/-- orchestrator.py `_build_context_string_with_memory`. -/
def buildContextStringWithMemory (ctx : ConversationContext)
    (memoryContext : Option MemoryContext) : String :=
  let memParts :=
    match memoryContext with
    | none => []
    | some mc =>
        (if mc.user_profile_summary ≠ "" then
          ["User profile: " ++ mc.user_profile_summary] else [])
        ++ (if mc.recent_conversation_summary ≠ "" then
          ["Recent context: " ++ mc.recent_conversation_summary] else [])
        ++ (if mc.relevant_memories_summary ≠ "" then
          ["Relevant memories: " ++ mc.relevant_memories_summary] else [])
        ++ (if mc.episodic_context_summary ≠ "" then
          ["Past actions: " ++ mc.episodic_context_summary] else [])
  let baseContext := buildContextString ctx
  let parts := memParts ++ (if baseContext ≠ "" then [baseContext] else [])
  String.intercalate "\n\n" parts

/-- orchestrator.py `_is_simple_intent`'s fixed greeting/farewell/thanks
lexicon. -/
def greetingPatterns : List String :=
  ["hello", "hi", "hey", "greetings", "good morning",
   "good afternoon", "good evening", "howdy",
   "goodbye", "bye", "see you", "farewell",
   "thanks", "thank you", "thx"]

/-- orchestrator.py `AgentOrchestrator._is_simple_intent`: conversational
intents, and tool-free questions whose lowercased text contains a lexicon
pattern, take the fast path. -/
def isSimpleIntent (intent : Intent) : Bool :=
  if intent.type = IntentType.conversation then true
  else if intent.type = IntentType.question && !intent.requires_tool then
    greetingPatterns.any (fun pattern => strContainsSub (pyLower intent.text) pattern)
  else false

/-- orchestrator.py `_plan_needs_clarification`. -/
def planNeedsClarification (plan : ExecutionPlan) : Bool :=
  plan.steps.any (fun step => step.type == StepType.clarification)

/-- orchestrator.py `_update_conversation_context`: bump the turn counter and
append new words longer than 5 characters to the bounded topic ring. -/
def updateConversationContext (ctx : ConversationContext) (userMessage : String) :
    ConversationContext :=
  let words := pySplitWs (pyLower userMessage)
  let topics := words.foldl
    (fun acc w => if 5 < w.length && !acc.contains w then acc ++ [w] else acc)
    ctx.recent_topics
  { ctx with turn_count := ctx.turn_count + 1, recent_topics := lastN 5 topics }

/-- orchestrator.py `_extract_and_store_memories`' memorable-fact patterns. -/
def memorablePatterns : List String :=
  ["my name is", "i am called", "call me", "i prefer", "i like",
   "i don't like", "i live in", "i work at", "i work as", "my favorite",
   "remember that", "please remember", "don't forget"]

/-- orchestrator.py `_extract_and_store_memories`: when the lowercased user
message contains a memorable pattern, one semantic write request (auto
approved at confidence 0.8) is emitted to the writer; recorded here as the
request content. -/
def extractAndStoreMemories (userMessage : String) (st : OrchState) : OrchState :=
  if memorablePatterns.any (fun p => strContainsSub (pyLower userMessage) p) then
    { st with memWriteContents := st.memWriteContents ++ [userMessage] }
  else st

/-- Python truthiness of the executor's `final_output` payload (an absent
output and the empty string are falsy). -/
def stepOutputTruthy : Option StepOutput → Bool
  | none => false
  | some (StepOutput.text s) => s ≠ ""
  | some _ => true

/-- Python `execution_result.final_output or default` on the fast path,
rendered at the string type (non-string payloads, which would fail the
result model's validation in the source, are rendered as the default). -/
def finalOutputText (output : Option StepOutput) (default : String) : String :=
  match output with
  | some (StepOutput.text s) => if s = "" then default else s
  | some _ => default
  | none => default

/-- The verification the orchestrator synthesises when skipping the verifier
for a low-risk plan. -/
def skippedVerification : Verification :=
  { is_valid := true, confidence := q0p9, issues := [] }

/-- orchestrator.py `_attempt_correction`'s retry loop (max_retries = 2):
re-execute with the correction system context (and no memory context, as in
the source call), re-verify, and stop as soon as correction is no longer
required. -/
def attemptCorrectionLoop (agents : Agents) (plan : ExecutionPlan)
    (originalMessage : String) :
    Nat → ExecutionResult → Verification → OrchState →
    ExecutionResult × Verification × OrchState
  | 0, executionResult, verification, st => (executionResult, verification, st)
  | n + 1, _executionResult, verification, st =>
      let history :=
        [("user", originalMessage),
         ("system", "Previous attempt had issues: "
            ++ String.intercalate ", " verification.issues
            ++ ". Correction hint: " ++ (verification.correction_hint.getD "None"))]
      let executionResult' := agents.execute plan history none
      let st1 := { st with executorPlans := st.executorPlans ++ [plan] }
      let verification' := agents.verify executionResult' originalMessage
      let st2 := { st1 with verifierCalls := st1.verifierCalls + 1 }
      if verification'.requires_correction then
        attemptCorrectionLoop agents plan originalMessage n
          executionResult' verification' st2
      else (executionResult', verification', st2)

/-- orchestrator.py `_request_clarification_from_plan`'s generic question. -/
def clarificationQuestion : String :=
  "Could you please provide more details about what you'd like me to do?"

/-- The one-step fast-path plan the orchestrator synthesises for a simple
intent. -/
def fastPathPlan (intent : Intent) : ExecutionPlan :=
  { intent := intent
    steps := [{ type := StepType.llm_response,
                description := "Generate conversational response" }]
    estimated_complexity := "simple"
    requires_verification := false
    requires_explanation := false }

/-- The body of `process_message` past the pending-clarification check
(steps 4-14 of the orchestrator algorithm): concurrent retrieval and intent
interpretation, the fast-path gate, and otherwise the plan/execute/verify/
explain pipeline with the clarification suspension, the correction loop, the
assistant-turn write and the memorable-fact extraction.  `st2` is the state
with the user turn already written; `context` the in-process conversation
context read before the user turn. -/
def processMessageCore (agents : Agents) (message conversationId : String)
    (context : ConversationContext) (st2 : OrchState) :
    AgentResult × OrchState :=
      let memoryContext := agents.retrieveCtx message conversationId
      let contextString := buildContextString context
      let intent := agents.interpret message contextString
      let contextStringWithMemory :=
        buildContextStringWithMemory context (some memoryContext)
      if isSimpleIntent intent then
        let plan := fastPathPlan intent
        let executionResult := agents.execute plan [] (some memoryContext)
        let st3 := { st2 with executorPlans := st2.executorPlans ++ [plan] }
        let response := finalOutputText executionResult.final_output "I'm here to help!"
        let context' := updateConversationContext context message
        let st4 := convContextSet st3 conversationId context'
        let st5 := { st4 with
          turnStore := st4.turnStore ++ [(conversationId, "assistant", response)] }
        ({ response := response
           reasoning := some "Simple conversational response"
           confidence := 1 }, st5)
      else
        let plan := agents.createPlan intent contextStringWithMemory
        let st3 := { st2 with plannerCalls := st2.plannerCalls + 1 }
        if planNeedsClarification plan then
          let st4 :=
            if st3.pending.contains conversationId then st3
            else { st3 with pending := st3.pending ++ [conversationId] }
          ({ response := clarificationQuestion
             reasoning := some "Requesting clarification before proceeding"
             confidence := q0p5 }, st4)
        else
          let executionResult := agents.execute plan [] (some memoryContext)
          let st4 := { st3 with executorPlans := st3.executorPlans ++ [plan] }
          let afterVerify :=
            if plan.requires_verification then
              let verification := agents.verify executionResult message
              let st5 := { st4 with verifierCalls := st4.verifierCalls + 1 }
              if verification.requires_correction then
                attemptCorrectionLoop agents plan message 2
                  executionResult verification st5
              else (executionResult, verification, st5)
            else (executionResult, skippedVerification, st4)
          let executionResult' := afterVerify.1
          let verification := afterVerify.2.1
          let st6 := afterVerify.2.2
          let afterExplain :=
            if !plan.requires_explanation && stepOutputTruthy executionResult'.final_output then
              (finalOutputText executionResult'.final_output "",
               some "Direct execution response", st6)
            else
              let explanation := agents.explain intent executionResult' verification
              (explanation.response, explanation.reasoning,
               { st6 with explainerCalls := st6.explainerCalls + 1 })
          let response := afterExplain.1
          let reasoning := afterExplain.2.1
          let st7 := afterExplain.2.2
          let context' := updateConversationContext context message
          let st8 := convContextSet st7 conversationId context'
          let st9 := { st8 with
            turnStore := st8.turnStore ++ [(conversationId, "assistant", response)] }
          let st10 := extractAndStoreMemories message st9
          ({ response := response
             reasoning := reasoning
             confidence := verification.confidence }, st10)

/-- agents/orchestrator.py `AgentOrchestrator.process_message`, with the
memory manager present.  Writes the user turn, consumes a pending
clarification if one exists (re-invoking itself on the prefixed text), and
otherwise runs `processMessageCore`.  `fuel` bounds the re-invocation depth
(the source recursion consumes the pending entry before re-invoking, so
depth 1 suffices in reachable states); on exhausted fuel the outer
exception handler's apology is returned. -/
def processMessage (agents : Agents) :
    Nat → String → String → OrchState → AgentResult × OrchState
  | fuel, message, conversationId, st0 =>
    let context := convContextGet st0 conversationId
    let st1 := convContextEnsure st0 conversationId
    let st2 := { st1 with
      turnStore := st1.turnStore ++ [(conversationId, "user", message)] }
    if st2.pending.contains conversationId then
      match fuel with
      | 0 =>
          ({ response := "I apologize, but I encountered an error processing your request. Please try again."
             reasoning := some "Error: recursion limit"
             confidence := 0 }, st2)
      | fuel' + 1 =>
          let st3 := { st2 with pending := st2.pending.erase conversationId }
          processMessage agents fuel' ("[Clarification] " ++ message)
            conversationId st3
    else
      processMessageCore agents message conversationId context st2

/-- The user-role records of a turn-store extract. -/
def userTurnsOf (l : List TurnRecord) : List TurnRecord :=
  l.filter (fun t => t.2.1 == "user")

/-! ## Concrete inputs used by the evaluation theorems and witnesses -/

/-- A manifest imported but not yet approved (status `pending_approval`). -/
def c1Manifest : ToolManifestDB :=
  { id := 0, name := "demo", status := ToolStatus.pending_approval, created_at := 0 }

/-- A repository holding only the pending manifest. -/
def c1Repo : ToolRepoState := { manifests := [c1Manifest], nextId := 1 }

/-- A tool_execution plan step naming the pending manifest. -/
def c1Step : PlanStep :=
  { type := StepType.tool_execution, description := "run demo tool",
    tool_name := some "demo" }

/-- The executor's tool step evaluated against the pending manifest, with a
container that exits cleanly. -/
def c1Out : StepResult × ToolRepoState × Bool :=
  executeToolStep { exitCode := 0, stdout := "ok" } 0 1 2 c1Step 0 c1Repo

/-- A semantic write request passing all three writer gates. -/
def c2Request : MemoryWriteRequest :=
  { memory_type := MemoryType.semantic, content := "fact",
    source := MemorySource.conversation, confidence := 1 }

/-- A full-confidence verifier approval. -/
def c2Approval : VerifierMemoryApproval :=
  { approved := true, confidence := 1, reason := "ok" }

/-- A verifier rejection, used by the gate-order witness. -/
def c2RejectedApproval : VerifierMemoryApproval :=
  { approved := false, confidence := 1, reason := "unsafe" }

/-- A profile whose summary overruns the profile section budget. -/
def c3Profile : UserProfile :=
  { communication_style := some (String.mk (List.replicate 400 's')) }

/-- Stores with a long profile and one long high-confidence episodic entry. -/
def c3Stores : RetrievalStores :=
  { profile := c3Profile,
    episodicLogs := [("a", String.mk (List.replicate 370 'e'), q0p8)] }

/-- A retrieval request at the smallest accepted token limit. -/
def c3Request : MemoryRetrievalRequest := { user_message := "m", token_limit := 100 }

/-- A semantic write evaluated with the metadata insert failing. -/
def c4After : MemoryWriteResult × MemState :=
  writeSemantic (some (fun _ => [1])) 0 "fact" MemorySource.conversation q0p8
    none [] { trackMemoryFails := true }

/-- An approved manifest for the execution-log evaluation. -/
def c5Manifest : ToolManifestDB :=
  { id := 0, name := "t", status := ToolStatus.approved, created_at := 0 }

/-- A sandbox execution with log creation at t=0, container start at t=5 and
completion at t=10. -/
def c5After : SandboxOutcome × ToolRepoState :=
  sandboxExecuteTool { exitCode := 0 } 0 5 10 c5Manifest [] [] {}

/-- A preference write request with an explicit preference key. -/
def c6Request : MemoryWriteRequest :=
  { memory_type := MemoryType.preference, content := "en",
    source := MemorySource.conversation, confidence := q0p9,
    metadata := [("preference_key", "lang")] }

/-- The approving verifier decision for the preference write. -/
def c6Approval : VerifierMemoryApproval :=
  { approved := true, confidence := q0p9, reason := "ok" }

/-- A stand-in cipher for the repository boundary. -/
def c6Enc : String → String := fun v => v ++ "#enc"

/-- The first preference write, at time 1, on empty stores. -/
def c6After1 : MemoryWriteResult × MemState :=
  write none c6Enc 1 c6Request c6Approval {}

/-- The identical second preference write, at time 2. -/
def c6After2 : MemoryWriteResult × MemState :=
  write none c6Enc 2 c6Request c6Approval c6After1.2

/-- Concrete collaborating agents for the orchestrator witnesses: the
heuristic intent interpreter, a trivial planner, an executor answering a
fixed string, and empty memory. -/
def witAgents : Agents :=
  { interpret := fun m _ => heuristicInterpret m
    createPlan := fun i _ => { intent := i }
    execute := fun p _ _ =>
      { plan := p, success := true,
        final_output := some (StepOutput.text "Hi there!") }
    verify := fun _ _ => { is_valid := true }
    explain := fun _ _ _ => { response := "done" }
    retrieveCtx := fun _ _ => {} }

/-- An orchestrator state with one pending clarification for `conv2`. -/
def c10State : OrchState := { pending := ["conv2"] }

/-! ## Helper lemmas -/

/-- Updating a single execution-log id leaves a list free of that id
unchanged. -/
theorem mapUpdateId (i : Nat) (f : ToolExecutionLogDB → ToolExecutionLogDB)
    (l : List ToolExecutionLogDB) (h : ∀ r ∈ l, r.id ≠ i) :
    l.map (fun r => if r.id == i then f r else r) = l := by
  induction l with
  | nil => rfl
  | cons a t ih =>
      have ha : (a.id == i) = false := by
        simp [h a (List.mem_cons_self a t)]
      simp only [List.map_cons, ha, Bool.false_eq_true, if_false]
      rw [ih (fun r hr => h r (List.mem_cons_of_mem a hr))]

@[simp] theorem convContextEnsure_pending (st : OrchState) (cid : String) :
    (convContextEnsure st cid).pending = st.pending := by
  unfold convContextEnsure; split <;> rfl

@[simp] theorem convContextEnsure_turnStore (st : OrchState) (cid : String) :
    (convContextEnsure st cid).turnStore = st.turnStore := by
  unfold convContextEnsure; split <;> rfl

@[simp] theorem convContextEnsure_plannerCalls (st : OrchState) (cid : String) :
    (convContextEnsure st cid).plannerCalls = st.plannerCalls := by
  unfold convContextEnsure; split <;> rfl

@[simp] theorem convContextEnsure_executorPlans (st : OrchState) (cid : String) :
    (convContextEnsure st cid).executorPlans = st.executorPlans := by
  unfold convContextEnsure; split <;> rfl

@[simp] theorem convContextEnsure_verifierCalls (st : OrchState) (cid : String) :
    (convContextEnsure st cid).verifierCalls = st.verifierCalls := by
  unfold convContextEnsure; split <;> rfl

@[simp] theorem convContextEnsure_explainerCalls (st : OrchState) (cid : String) :
    (convContextEnsure st cid).explainerCalls = st.explainerCalls := by
  unfold convContextEnsure; split <;> rfl

@[simp] theorem convContextSet_pending (st : OrchState) (cid : String)
    (ctx : ConversationContext) :
    (convContextSet st cid ctx).pending = st.pending := rfl

@[simp] theorem convContextSet_turnStore (st : OrchState) (cid : String)
    (ctx : ConversationContext) :
    (convContextSet st cid ctx).turnStore = st.turnStore := rfl

@[simp] theorem convContextSet_plannerCalls (st : OrchState) (cid : String)
    (ctx : ConversationContext) :
    (convContextSet st cid ctx).plannerCalls = st.plannerCalls := rfl

@[simp] theorem convContextSet_executorPlans (st : OrchState) (cid : String)
    (ctx : ConversationContext) :
    (convContextSet st cid ctx).executorPlans = st.executorPlans := rfl

@[simp] theorem convContextSet_verifierCalls (st : OrchState) (cid : String)
    (ctx : ConversationContext) :
    (convContextSet st cid ctx).verifierCalls = st.verifierCalls := rfl

@[simp] theorem convContextSet_explainerCalls (st : OrchState) (cid : String)
    (ctx : ConversationContext) :
    (convContextSet st cid ctx).explainerCalls = st.explainerCalls := rfl

@[simp] theorem extractAndStoreMemories_turnStore (m : String) (st : OrchState) :
    (extractAndStoreMemories m st).turnStore = st.turnStore := by
  unfold extractAndStoreMemories; split <;> rfl

/-- The correction retry loop touches only the executor and verifier
invocation records, never the turn store. -/
theorem attemptCorrectionLoop_turnStore (agents : Agents) (plan : ExecutionPlan)
    (msg : String) :
    ∀ (n : Nat) (ex : ExecutionResult) (v : Verification) (st : OrchState),
      (attemptCorrectionLoop agents plan msg n ex v st).2.2.turnStore = st.turnStore
  | 0, ex, v, st => rfl
  | n + 1, ex, v, st => by
      simp only [attemptCorrectionLoop]
      split
      · exact attemptCorrectionLoop_turnStore agents plan msg n _ _ _
      · rfl

/-- With no pending clarification, `process_message` is the user-turn write
followed by the core pipeline, for any recursion fuel. -/
theorem processMessage_nonpending_eq (agents : Agents) (fuel : Nat)
    (message cid : String) (st0 : OrchState)
    (hp : st0.pending.contains cid = false) :
    processMessage agents fuel message cid st0 =
      processMessageCore agents message cid (convContextGet st0 cid)
        { convContextEnsure st0 cid with
          turnStore := (convContextEnsure st0 cid).turnStore
            ++ [(cid, "user", message)] } := by
  have hp' : cid ∉ st0.pending := by simpa using hp
  cases fuel <;> simp [processMessage, hp']

/-- With a pending clarification, `process_message` writes the raw user turn,
consumes the pending entry and re-invokes itself on the prefixed text. -/
theorem processMessage_pending_eq (agents : Agents) (fuel : Nat)
    (message cid : String) (st0 : OrchState)
    (hp : st0.pending.contains cid = true) :
    processMessage agents (fuel + 1) message cid st0 =
      processMessage agents fuel ("[Clarification] " ++ message) cid
        { convContextEnsure st0 cid with
          turnStore := (convContextEnsure st0 cid).turnStore
            ++ [(cid, "user", message)]
          pending := (convContextEnsure st0 cid).pending.erase cid } := by
  have hp' : cid ∈ st0.pending := by simpa using hp
  simp [processMessage, hp']

/-- The core pipeline appends only assistant turns: the user-role records of
the turn store are unchanged by it. -/
theorem processMessageCore_userTurns (agents : Agents)
    (message cid : String) (context : ConversationContext) (st2 : OrchState) :
    userTurnsOf (processMessageCore agents message cid context st2).2.turnStore
      = userTurnsOf st2.turnStore := by
  simp only [processMessageCore, userTurnsOf]
  split
  · simp [List.filter_append]
  · split
    · split <;> rfl
    · split
      · split
        · split <;> simp [List.filter_append, attemptCorrectionLoop_turnStore]
        · split <;> simp [List.filter_append]
      · split <;> simp [List.filter_append]

/-! ## Claim theorems -/

/-- Claim C1 (code bug): the executor's tool-execution step resolves the
manifest by name and executes it in the sandbox without consulting its
status.  Evaluated at a manifest whose status is `pending_approval`: the
sandbox execution takes place (third component true), the step succeeds, and
a terminal execution-log row is written — where the claim and the spec
require the attempt to be refused with no sandbox execution. -/
theorem pendingManifestExecutes :
    c1Manifest.status = ToolStatus.pending_approval
    ∧ c1Out.2.2 = true
    ∧ c1Out.1.success = true
    ∧ c1Out.2.1.executions.length = 1
    ∧ c1Out.2.1.executions.map (fun r => r.status) = [ExecutionStatus.success] := by
  decide

/-- Claim C2 (counterexample): the three gates all pass — approval granted,
effective confidence 1 ≥ 0.7, capture enabled — yet `write` returns
success = false (semantic route with no embedding function), refuting the
claimed "success if and only if all three gates pass". -/
theorem writeGatesNotSufficient :
    c2Approval.approved = true
    ∧ MIN_CONFIDENCE_THRESHOLD ≤ min c2Request.confidence c2Approval.confidence
    ∧ ({} : MemState).profile.memory_capture_enabled = true
    ∧ (write none id 0 c2Request c2Approval {}).1.success = false := by
  decide

/-- Claim C2 (amended): the three gates are evaluated in order and are
necessary — a failed gate yields success = false with the corresponding
error and leaves the stores untouched, and any successful write implies all
three gates held, with effective confidence exactly 0.7 accepted — but gates
passing does not by itself guarantee success (the routed write may still
fail, as `writeGatesNotSufficient` shows). -/
theorem writeGateOrderAndNecessity (embeddingFn : Option (String → List ℚ))
    (encV : String → String) (now : Nat) (request : MemoryWriteRequest)
    (approval : VerifierMemoryApproval) (st : MemState) :
    (approval.approved = false →
      write embeddingFn encV now request approval st =
        ({ success := false,
           error := some (WriteError.verifierRejected approval.reason),
           verifier_approved := false }, st))
    ∧ (approval.approved = true →
        min request.confidence approval.confidence < MIN_CONFIDENCE_THRESHOLD →
        write embeddingFn encV now request approval st =
          ({ success := false,
             error := some (WriteError.belowThreshold
               (min request.confidence approval.confidence)),
             verifier_approved := true }, st))
    ∧ (approval.approved = true →
        MIN_CONFIDENCE_THRESHOLD ≤ min request.confidence approval.confidence →
        st.profile.memory_capture_enabled = false →
        write embeddingFn encV now request approval st =
          ({ success := false, error := some WriteError.captureDisabled,
             verifier_approved := true }, st))
    ∧ ((write embeddingFn encV now request approval st).1.success = true →
        approval.approved = true
        ∧ MIN_CONFIDENCE_THRESHOLD ≤ min request.confidence approval.confidence
        ∧ st.profile.memory_capture_enabled = true)
    ∧ (approval.approved = true →
        min request.confidence approval.confidence = MIN_CONFIDENCE_THRESHOLD →
        st.profile.memory_capture_enabled = true →
        request.memory_type = MemoryType.episodic →
        st.trackMemoryFails = false →
        (write embeddingFn encV now request approval st).1.success = true) := by
  refine ⟨?_, ?_, ?_, ?_, ?_⟩
  · intro h
    simp [write, h]
  · intro h1 h2
    simp [write, h1, h2]
  · intro h1 h2 h3
    simp [write, h1, not_lt.mpr h2, h3]
  · intro h
    cases ha : approval.approved with
    | false => simp [write, ha] at h
    | true =>
        by_cases hconf : min request.confidence approval.confidence < MIN_CONFIDENCE_THRESHOLD
        · simp [write, ha, hconf] at h
        · cases hcap : st.profile.memory_capture_enabled with
          | false => simp [write, ha, hconf, hcap] at h
          | true => exact ⟨rfl, not_lt.mp hconf, rfl⟩
  · intro h1 h2 h3 h4 h5
    have hnl : ¬ (min request.confidence approval.confidence < MIN_CONFIDENCE_THRESHOLD) := by
      rw [h2]
      exact lt_irrefl _
    simp [write, writeEpisodic, h1, hnl, h3, h4, h5]

/-- Claim C2 witness: the first gate applied to a concrete rejected
approval. -/
theorem writeGateOrderAndNecessityWitness :
    write none (fun v => v) 0 c2Request c2RejectedApproval {} =
      ({ success := false,
         error := some (WriteError.verifierRejected "unsafe"),
         verifier_approved := false }, {}) :=
  (writeGateOrderAndNecessity none (fun v => v) 0 c2Request c2RejectedApproval {}).1 rfl

set_option maxRecDepth 10000 in
/-- Claim C3 (code bug): at the smallest accepted token limit (100), with a
long profile and one long high-confidence episodic entry, the retrieval
pipeline's total token estimate is 198 > 100: the section budgets are each
capped at `min(section_budget, token_limit)` but the remaining budget is
never decremented between sections, so the request's token limit is not an
upper bound of `total_token_estimate`. -/
theorem retrieveExceedsTokenLimit :
    (100 ≤ c3Request.token_limit ∧ c3Request.token_limit ≤ 8000)
    ∧ c3Request.token_limit < (retrieve c3Stores c3Request).total_token_estimate := by
  decide

/-- Claim C4 (counterexample): the semantic upsert to the vector store
succeeds and the subsequent metadata insert fails, yet the stored entry
remains in the vector store (id 0 present) with no metadata row at all — no
compensating delete takes place. -/
theorem semanticOrphanCounterexample :
    c4After.2.qdrant.map (fun p => p.id) = [0]
    ∧ c4After.2.metadata = []
    ∧ c4After.1.success = false := by
  decide

/-- Claim C4 (amended): whenever the vector-store upsert succeeds and the
metadata insert fails, the writer returns a failure result, the metadata
table is unchanged, and the freshly stored semantic entry is left behind in
the vector store — it is not compensated by a delete, so a semantic entry
without a metadata row remains. -/
theorem writeSemanticNoCompensation (f : String → List ℚ) (now : Nat)
    (content : String) (source : MemorySource) (confidence : ℚ)
    (conversation_id : Option String) (md : List (String × String))
    (st : MemState) (h : st.trackMemoryFails = true) :
    (writeSemantic (some f) now content source confidence conversation_id md st).1 =
      { success := false, error := some WriteError.storeError,
        verifier_approved := true }
    ∧ (writeSemantic (some f) now content source confidence conversation_id md st).2.metadata
        = st.metadata
    ∧ (writeSemantic (some f) now content source confidence conversation_id md st).2.qdrant
        = st.qdrant ++
            [{ id := st.nextId, vector := f content, source := source,
               confidence := confidence, summary := strTake content 500,
               conversation_id := conversation_id,
               tool_name := metaGet md "tool_name" }] := by
  refine ⟨?_, ?_, ?_⟩ <;> simp [writeSemantic, h]

/-- Claim C4 witness: the no-compensation theorem applied at a concrete
faulty state. -/
theorem writeSemanticNoCompensationWitness :
    (writeSemantic (some (fun _ => [1])) 0 "fact" MemorySource.conversation q0p8
      none [] { trackMemoryFails := true }).1 =
      { success := false, error := some WriteError.storeError,
        verifier_approved := true } :=
  (writeSemanticNoCompensation (fun _ => [1]) 0 "fact" MemorySource.conversation
    q0p8 none [] { trackMemoryFails := true } rfl).1

/-- Claim C5 (counterexample): with the log row created at t=0, the container
started at t=5 and completed at t=10, the terminal update records
`duration_ms = 5` while `completed_at − started_at = 10`: the recorded
duration is not `completed_at − started_at`. -/
theorem durationMismatchCounterexample :
    c5After.2.executions.map (fun r => (r.started_at, r.completed_at, r.duration_ms))
      = [(0, some 10, some 5)]
    ∧ (5 : Nat) ≠ 10 - 0 := by
  decide

/-- Claim C5 (amended): each sandbox invocation creates its log row as
`running` and updates it exactly once with terminal fields;
`completed_at ≥ started_at` holds, but `duration_ms` equals
`completed_at − t_start` for the container-start timestamp sampled after the
configuration is built (`started_at ≤ t_start`), hence
`duration_ms ≤ completed_at − started_at` with equality only when the two
samples coincide; and on a container-start failure the single terminal
update records `failure` and `completed_at` with `duration_ms` left unset. -/
theorem executionLogLifecycle (run : ContainerRun) (tCreate tStart tEnd : Nat)
    (manifest : ToolManifestDB) (permissions : List ToolPermissionDB)
    (params : List (String × String)) (st : ToolRepoState)
    (h1 : tCreate ≤ tStart) (h2 : tStart ≤ tEnd)
    (hfresh : ∀ r ∈ st.executions, r.id ≠ st.nextId) :
    (createToolExecution tCreate manifest.id params st).1.status =
      ExecutionStatus.running
    ∧ (sandboxExecuteTool run tCreate tStart tEnd manifest permissions params
        st).2.updateLogCalls = st.updateLogCalls ++ [st.nextId]
    ∧ (run.startFails = false →
        (sandboxExecuteTool run tCreate tStart tEnd manifest permissions params
          st).2.executions =
          st.executions ++
            [{ id := st.nextId, tool_id := manifest.id, input_params := params,
               started_at := tCreate, completed_at := some tEnd,
               duration_ms := some (tEnd - tStart),
               status := if run.exitCode = 0 then ExecutionStatus.success
                 else ExecutionStatus.failure,
               exit_code := some run.exitCode,
               container_id := some "container" }])
    ∧ (run.startFails = true →
        (sandboxExecuteTool run tCreate tStart tEnd manifest permissions params
          st).2.executions =
          st.executions ++
            [{ id := st.nextId, tool_id := manifest.id, input_params := params,
               started_at := tCreate, completed_at := some tEnd,
               duration_ms := none, status := ExecutionStatus.failure,
               exit_code := none, container_id := none }])
    ∧ tCreate ≤ tEnd
    ∧ tEnd - tStart ≤ tEnd - tCreate := by
  refine ⟨rfl, ?_, ?_, ?_, le_trans h1 h2, Nat.sub_le_sub_left h1 tEnd⟩
  · cases hsf : run.startFails <;>
      simp [sandboxExecuteTool, createToolExecution, updateToolExecution, hsf]
  · intro hsf
    simp only [sandboxExecuteTool, createToolExecution, updateToolExecution, hsf,
      Bool.false_eq_true, if_false, List.map_append, List.map_cons, List.map_nil]
    rw [mapUpdateId st.nextId _ st.executions hfresh]
    simp
  · intro hsf
    simp only [sandboxExecuteTool, createToolExecution, updateToolExecution, hsf,
      if_true, List.map_append, List.map_cons, List.map_nil]
    rw [mapUpdateId st.nextId _ st.executions hfresh]
    simp

/-- Claim C5 witness: the lifecycle theorem applied at the concrete
timestamps 0 ≤ 5 ≤ 10 on an empty repository. -/
theorem executionLogLifecycleWitness :
    (sandboxExecuteTool { exitCode := 0 } 0 5 10 c5Manifest [] []
      ({} : ToolRepoState)).2.updateLogCalls = [0] := by
  have h := executionLogLifecycle { exitCode := 0 } 0 5 10 c5Manifest [] [] {}
    (by decide) (by decide) (fun r hr => absurd hr (List.not_mem_nil r))
  simpa using h.2.1

/-- Claim C6 (code bug): writing the identical preference twice leaves
exactly one preference row for the key with `updated_at` refreshed to the
second write's time, but the second write inserts a second metadata row —
keyed by the fresh uuid that `set_preference` returns from its INSERT arm
even when the UPDATE arm ran — which matches no preference row, violating
the one-metadata-row-per-entry invariant. -/
theorem preferenceRewriteDanglingMetadata :
    (c6After2.2.prefs.filter (fun r => r.key == "lang")).length = 1
    ∧ c6After2.2.prefs.map (fun r => r.updated_at) = [2]
    ∧ c6After2.2.metadata.length = 2
    ∧ c6After2.2.metadata.any (fun m => m.id == 1) = true
    ∧ c6After2.2.prefs.any (fun r => r.id == 1) = false
    ∧ c6After2.1.success = true := by
  decide

/-- Claim C7: when no clarification is pending and the interpreted intent is
simple (conversational, or a tool-free question matching the greeting
lexicon), `process_message` executes exactly one plan — the one-step
`llm_response` plan with `requires_verification = false` and
`requires_explanation = false` — invokes neither planner nor verifier nor
explainer, writes the user and assistant turns, and returns confidence 1
with reasoning "Simple conversational response". -/
theorem fastPathBehaviour (agents : Agents) (fuel : Nat)
    (message conversationId : String) (st : OrchState)
    (intent : Intent) (response : String)
    (hintent : intent = agents.interpret message
      (buildContextString (convContextGet st conversationId)))
    (hp : st.pending.contains conversationId = false)
    (hs : isSimpleIntent intent = true)
    (hresp : response = finalOutputText
      (agents.execute (fastPathPlan intent) []
        (some (agents.retrieveCtx message conversationId))).final_output
      "I'm here to help!") :
    (processMessage agents fuel message conversationId st).1 =
      { response := response
        reasoning := some "Simple conversational response"
        confidence := 1 }
    ∧ (processMessage agents fuel message conversationId st).2.plannerCalls
        = st.plannerCalls
    ∧ (processMessage agents fuel message conversationId st).2.verifierCalls
        = st.verifierCalls
    ∧ (processMessage agents fuel message conversationId st).2.explainerCalls
        = st.explainerCalls
    ∧ (processMessage agents fuel message conversationId st).2.executorPlans
        = st.executorPlans ++ [fastPathPlan intent]
    ∧ (processMessage agents fuel message conversationId st).2.turnStore
        = st.turnStore ++ [(conversationId, "user", message),
                           (conversationId, "assistant", response)]
    ∧ (fastPathPlan intent).steps =
        [{ type := StepType.llm_response
           description := "Generate conversational response" }]
    ∧ (fastPathPlan intent).requires_verification = false
    ∧ (fastPathPlan intent).requires_explanation = false := by
  subst hintent
  subst hresp
  rw [processMessage_nonpending_eq agents fuel message conversationId st hp]
  refine ⟨?_, ?_, ?_, ?_, ?_, ?_, rfl, rfl, rfl⟩ <;>
    simp [processMessageCore, hs]

/-- Claim C7 witness: the fast-path theorem applied to the heuristic
interpretation of "Hello" on a fresh state. -/
theorem fastPathBehaviourWitness :
    (processMessage witAgents 1 "Hello" "conv1" {}).1 =
      { response := "Hi there!"
        reasoning := some "Simple conversational response"
        confidence := 1 }
    ∧ (processMessage witAgents 1 "Hello" "conv1" {}).2.turnStore =
        [("conv1", "user", "Hello"), ("conv1", "assistant", "Hi there!")] := by
  have h := fastPathBehaviour witAgents 1 "Hello" "conv1" {}
    (heuristicInterpret "Hello") "Hi there!" rfl rfl (by decide) (by decide)
  exact ⟨h.1, h.2.2.2.2.2.1⟩

/-- Claim C8 (counterexample): on the empty utterance the heuristic fallback
returns an Intent of type `conversation`, not `unknown`. -/
theorem emptyUtteranceCounterexample :
    (heuristicInterpret "").type ≠ IntentType.unknown
    ∧ (heuristicInterpret "").type = IntentType.conversation := by
  decide

/-- Claim C8 (amended): for every empty or whitespace-only utterance the
heuristic fallback returns an Intent of type `conversation` with
`requires_tool = false` (the heuristic has no `unknown` outcome: its cases
are question, command and conversation only). -/
theorem emptyUtteranceConversation (s : String)
    (h : pyTrim (pyLower s) = "") :
    (heuristicInterpret s).type = IntentType.conversation
    ∧ (heuristicInterpret s).requires_tool = false := by
  constructor <;> · simp only [heuristicInterpret, h]; decide

/-- Claim C8 witness: the amended theorem at a whitespace-only utterance. -/
theorem emptyUtteranceConversationWitness :
    (heuristicInterpret "   ").type = IntentType.conversation
    ∧ (heuristicInterpret "   ").requires_tool = false :=
  emptyUtteranceConversation "   " (by decide)

/-- Claim C9: under a fixed key, decrypting an encrypted string returns the
exact plaintext; decrypting with any different key fails deterministically
with `EncryptionError` instead of returning a plaintext. -/
theorem encryptDecryptRoundTrip (k wrongKey : FernetKey) (x : String) :
    EncryptionService.decrypt k (EncryptionService.encrypt k x) = Except.ok x
    ∧ (wrongKey ≠ k →
        EncryptionService.decrypt wrongKey (EncryptionService.encrypt k x) =
          Except.error EncryptionError.invalidToken) := by
  constructor
  · simp [EncryptionService.decrypt, EncryptionService.encrypt,
      fernetEncrypt, fernetDecrypt, b64encode, b64decode]
  · intro hne
    simp [EncryptionService.decrypt, EncryptionService.encrypt,
      fernetEncrypt, fernetDecrypt, b64encode, b64decode, Ne.symm hne]

/-- Claim C9 witness: the round trip and the wrong-key failure at concrete
keys. -/
theorem encryptDecryptRoundTripWitness :
    EncryptionService.decrypt { bytes := [0] }
        (EncryptionService.encrypt { bytes := [0] } "secret") = Except.ok "secret"
    ∧ EncryptionService.decrypt { bytes := [1] }
        (EncryptionService.encrypt { bytes := [0] } "secret") =
      Except.error EncryptionError.invalidToken :=
  ⟨(encryptDecryptRoundTrip { bytes := [0] } { bytes := [1] } "secret").1,
   (encryptDecryptRoundTrip { bytes := [0] } { bytes := [1] } "secret").2 (by decide)⟩

/-- Claim C10: when a pending clarification exists for the conversation,
`process_message` writes the raw user message to the turn store, consumes
the pending entry and re-invokes itself on the "[Clarification] "-prefixed
text — so the one call appends exactly two user-role turns, the raw message
and the prefixed one (any further appends are assistant turns). -/
theorem clarificationReprocessing (agents : Agents) (fuel : Nat)
    (message conversationId : String) (st : OrchState)
    (hcount : st.pending.count conversationId = 1) :
    processMessage agents (fuel + 1) message conversationId st =
      processMessage agents fuel ("[Clarification] " ++ message) conversationId
        { convContextEnsure st conversationId with
          turnStore := (convContextEnsure st conversationId).turnStore
            ++ [(conversationId, "user", message)]
          pending := (convContextEnsure st conversationId).pending.erase conversationId }
    ∧ userTurnsOf (processMessage agents (fuel + 1) message conversationId st).2.turnStore
        = userTurnsOf st.turnStore
          ++ [(conversationId, "user", message),
              (conversationId, "user", "[Clarification] " ++ message)] := by
  have hmem : conversationId ∈ st.pending := List.count_pos_iff.mp (by omega)
  have hcontains : st.pending.contains conversationId = true := by simpa using hmem
  have heq := processMessage_pending_eq agents fuel message conversationId st hcontains
  refine ⟨heq, ?_⟩
  rw [heq]
  have hnot : ({ convContextEnsure st conversationId with
      turnStore := (convContextEnsure st conversationId).turnStore
        ++ [(conversationId, "user", message)]
      pending := (convContextEnsure st conversationId).pending.erase conversationId }
        : OrchState).pending.contains conversationId = false := by
    have h0 : (st.pending.erase conversationId).count conversationId = 0 := by
      rw [List.count_erase_self, hcount]
    have hnm : conversationId ∉ st.pending.erase conversationId :=
      List.count_eq_zero.mp h0
    simpa using hnm
  rw [processMessage_nonpending_eq agents fuel ("[Clarification] " ++ message)
    conversationId _ hnot]
  rw [processMessageCore_userTurns]
  simp [userTurnsOf, List.filter_append]

/-- Claim C10 witness: the clarification re-invocation at a concrete state
with one pending clarification. -/
theorem clarificationReprocessingWitness :
    processMessage witAgents 2 "Hello" "conv2" c10State =
      processMessage witAgents 1 ("[Clarification] " ++ "Hello") "conv2"
        { convContextEnsure c10State "conv2" with
          turnStore := (convContextEnsure c10State "conv2").turnStore
            ++ [("conv2", "user", "Hello")]
          pending := (convContextEnsure c10State "conv2").pending.erase "conv2" } :=
  (clarificationReprocessing witAgents 1 "Hello" "conv2" c10State (by decide)).1

end Slovo
